import Mathlib

/-!
Verification of the client-side chat session and authentication
synchronization core of the Sakhi chat application.

The development shallowly embeds the TypeScript source:
* `ApiService.request` / `ApiService.refreshToken` (src/services/api.ts) as a
  fuel-indexed function over an oracle of fetch outcomes;
* the `ChatProvider` operations (src/contexts/ChatContext.tsx) as pure
  state-transformers that additionally report the network calls they issue;
* the `AuthProvider` startup check (src/contexts/AuthContext.tsx).

JavaScript string primitives used by the source (`String.prototype.startsWith`,
`String.prototype.slice`, `parseInt`) are modelled on the character sequence of
the Lean `String`.
-/

namespace Sakhi

/-! ## JavaScript string primitives -/

/-- Model of JS `s.startsWith(p)`: `p`'s character sequence starts `s`'s. -/
def jsStartsWith (s p : String) : Bool :=
  p.data.isPrefixOf s.data

/-- Model of JS `s.slice(0, n)`: the first `n` characters of `s`. -/
def jsSlice (s : String) (n : Nat) : String :=
  ⟨s.data.take n⟩

/-- Model of JS `parseInt` on the numeric session-id strings the client
produces (`session.id.toString()`). -/
def parseIntS (s : String) : Nat :=
  (s.toNat?).getD 0

/-! ## Token Store and Authenticated Request Executor (`ApiService`) -/

/-- The token state of `ApiService`: `this.accessToken` (kept in sync with the
`access_token` localStorage key) and the `refresh_token` localStorage key. -/
structure ApiState where
  accessToken : Option String
  refreshTokenStored : Option String
deriving DecidableEq, Repr

/-- `apiService.logout()`: clears both tokens. -/
def ApiState.logout : ApiState := ⟨none, none⟩

/-- `apiService.isAuthenticated()`: true iff `this.accessToken` is set. -/
def ApiState.isAuthenticated (st : ApiState) : Bool :=
  st.accessToken.isSome

/-- Outcome of one `fetch` as seen by `ApiService.request`: a 2xx response
(whose JSON body carries the token pair fields read by `refreshToken`), a
non-2xx HTTP status, or a transport failure (`TypeError` from `fetch`). -/
inductive FetchOutcome where
  | ok (newAccess newRefresh : String)
  | httpErr (status : Nat)
  | netErr
deriving DecidableEq, Repr

/-- Error classification of `ApiService.request`. -/
inductive ReqError where
  | authFailed
  | authRequired
  | httpStatus (n : Nat)
  | backendDown
deriving DecidableEq, Repr

/-- Mutable context threaded through a run of `ApiService.request`: the token
state, the index of the next `fetch`, and the log of endpoints fetched. -/
structure ReqM where
  st : ApiState
  idx : Nat
  log : List String
deriving DecidableEq, Repr

/-- Shallow embedding of `ApiService.request` together with the inlined body of
`ApiService.refreshToken` (which itself calls `this.request('/auth/refresh')`,
making the pair mutually recursive; `fuel` bounds that recursion and a `none`
result marks fuel exhaustion, i.e. divergence of the real code).

`env i ep` is the outcome of the `i`-th `fetch` of the run when directed at
endpoint `ep`.  Faithful points: the `Authorization` header is attached iff
`accessToken` is present; on a 401 with an access token attached and a stored
refresh token, `refreshToken()` is invoked (one request to `/auth/refresh`; on
its success both tokens are persisted and the original request is re-fetched
once; any failure in that block hits the `catch (refreshError)` handler which
calls `logout()` and throws `Authentication failed`); on a 401 without a
stored refresh token the service logs out and throws `Authentication
required`; a transport failure surfaces as the distinguished backend-down
error. -/
def runRequest (env : Nat → String → FetchOutcome) :
    Nat → String → ReqM → Option (Except ReqError (String × String)) × ReqM
  | 0, _, m => (none, m)
  | Nat.succ fuel, ep, m =>
    let hasAuth := m.st.accessToken.isSome
    let outcome := env m.idx ep
    let m1 : ReqM := { m with idx := m.idx + 1, log := m.log ++ [ep] }
    match outcome with
    | .netErr => (some (.error .backendDown), m1)
    | .ok a r => (some (.ok (a, r)), m1)
    | .httpErr status =>
      if status == 401 && hasAuth then
        match m1.st.refreshTokenStored with
        | some _ =>
          match runRequest env fuel "/auth/refresh" m1 with
          | (some (.ok (a, r)), m2) =>
            let m3 : ReqM := { m2 with st := ⟨some a, some r⟩ }
            let retryOutcome := env m3.idx ep
            let m4 : ReqM := { m3 with idx := m3.idx + 1, log := m3.log ++ [ep] }
            match retryOutcome with
            | .ok a2 r2 => (some (.ok (a2, r2)), m4)
            | _ => (some (.error .authFailed), { m4 with st := ApiState.logout })
          | (some (.error _), m2) =>
            (some (.error .authFailed), { m2 with st := ApiState.logout })
          | (none, m2) => (none, m2)
        | none => (some (.error .authRequired), { m1 with st := ApiState.logout })
      else
        (some (.error (.httpStatus status)), m1)

deriving instance DecidableEq for Except

/-! ## Authentication Lifecycle Controller (`AuthProvider`) -/

/-- The fetched user profile (`GET /auth/me` payload), as far as the
synchronization core consumes it. -/
structure UserT where
  id : Nat
  email : String
  username : String
deriving DecidableEq, Repr

/-- `AuthProvider`'s `isAuthenticated`: the conjunction
`!!user && apiService.isAuthenticated()`. -/
def isAuthenticatedView (user : Option UserT) (api : ApiState) : Bool :=
  user.isSome && api.isAuthenticated

/-- The startup `checkAuth` effect of `AuthProvider`: when the Token Store
holds an access token, fetch the current-user profile; on success set `user`,
on any failure call `apiService.logout()` (leaving `user` untouched). `getMe`
is the outcome of `apiService.getCurrentUser()`. -/
def checkAuth (getMe : Except Unit UserT) (user : Option UserT) (api : ApiState) :
    Option UserT × ApiState :=
  if api.isAuthenticated then
    match getMe with
    | .ok u => (some u, api)
    | .error _ => (user, ApiState.logout)
  else (user, api)

/-! ## Session Directory data model (`ChatContext`) -/

/-- Message role. -/
inductive Role where
  | user
  | assistant
deriving DecidableEq, Repr

/-- The client-side `Message` record (`src/types`): `Date` modelled as `Nat`. -/
structure Msg where
  id : String
  content : String
  role : Role
  timestamp : Nat
deriving DecidableEq, Repr

/-- The client-side `ChatHistory` record. -/
structure ChatHistory where
  id : String
  title : String
  messages : List Msg
  createdAt : Nat
  updatedAt : Nat
deriving DecidableEq, Repr

/-- The server `ChatSession` payload (`src/services/api.ts`). -/
structure ApiSession where
  id : Nat
  title : String
  created_at : Nat
  updated_at : Nat
deriving DecidableEq, Repr

/-- The server `Message` payload (`src/services/api.ts`). -/
structure ApiMessage where
  id : Nat
  content : String
  is_user_message : Bool
  timestamp : Nat
deriving DecidableEq, Repr

/-- State of `ChatProvider`: the Session Directory (most recent first), the
current pointer, the `isAuthenticated` value from `AuthContext`, and the
`isLoading` flag. -/
structure ChatState where
  chatHistories : List ChatHistory
  currentChat : Option ChatHistory
  isAuthenticated : Bool
  isLoading : Bool
deriving DecidableEq, Repr

/-- A network call issued through `apiService` by a chat operation. -/
inductive NetCall where
  | createSession
  | getSessions
  | getMessages (sessionId : Nat)
  | sendMsg (sessionId : Nat)
  | updateTitle (sessionId : Nat)
  | deleteSession (sessionId : Nat)
deriving DecidableEq, Repr

/-- Result of one chat operation: the final state, the network calls issued in
order, the `setTimeout` delays awaited (in milliseconds, the exact rational
value of `1000 + Math.random() * 2000`), and — for `sendMessage` — the state
published synchronously right after the optimistic append (`none` when the
operation returned before the optimistic update). -/
structure OpOut where
  st : ChatState
  calls : List NetCall
  slept : List Rat
  optimistic : Option ChatState
deriving DecidableEq, Repr

/-- The id-namespace test used throughout `ChatProvider`:
`id.startsWith('local-')`. -/
def isLocalId (id : String) : Bool :=
  jsStartsWith id "local-"

/-- Message conversion used by `convertApiChatToLocal`, `selectChat` and
`sendMessage`. -/
def convMsg (m : ApiMessage) : Msg :=
  ⟨toString m.id, m.content, if m.is_user_message then .user else .assistant, m.timestamp⟩

/-- `ChatProvider.convertApiChatToLocal`. -/
def convertApiChatToLocal (sess : ApiSession) (messages : List ApiMessage) : ChatHistory :=
  ⟨toString sess.id, sess.title, messages.map convMsg, sess.created_at, sess.updated_at⟩

/-- The canned anonymous-mode assistant responses of `sendMessage`, verbatim
from the source. -/
def mockResponses : List String :=
  ["Hello! I'm Sakhi, your AI assistant! ðŸ¤–âœ¨\n\n**What I can help you with:**\n- Answer questions on various topics ðŸ§ \n- Help with coding and programming ðŸ’»\n- Provide explanations and tutorials ðŸ“–\n- Assist with creative writing and ideas ðŸ’¡\n\nTo unlock full features and save your conversations, consider signing in! Your chats will be preserved across sessions. ðŸ”",
   "Hi there! Welcome to Sakhi! ðŸŒŸ I'm here to help you with whatever you need.\n\n**I can assist with:**\n- General knowledge questions ðŸ“š\n- Programming and technical help ðŸ”§\n- Creative writing and brainstorming ðŸŽ¨\n- Learning new concepts ðŸŽ“\n\nFor the best experience, consider creating an account to save your conversation history! âœ¨",
   "Hey! Great to meet you! I'm Sakhi, your friendly AI companion. ðŸ¤—\n\n**Here's what I can do:**\n- Answer complex questions with detailed explanations ðŸ§\n- Help with problem-solving and analysis ðŸ”\n- Provide writing assistance and feedback âœï¸\n- Code review and programming help ðŸ‘¨â€ðŸ’»\n\nCreate an account to save your chat history and unlock premium features! ðŸš€"]

/-! ## Chat Synchronization Core operations -/

/-- Environment of one `createNewChat` call: the outcome of
`apiService.createChatSession` and the clock readings. -/
structure CreateEnv where
  createRes : Except Unit ApiSession
  nowMs : Nat
  tNew : Nat

/-- Environment of one `selectChat` call. -/
structure SelectEnv where
  msgsRes : Except Unit (List ApiMessage)

/-- Environment of one `sendMessage` call: outcomes of the up-to-four API
calls, the two generated uuids, the clock readings, and the two
`Math.random()` draws. -/
structure SendEnv where
  createRes : Except Unit ApiSession
  sendRes : Except Unit Unit
  msgsRes : Except Unit (List ApiMessage)
  titleRes : Except Unit String
  uuidUser : String
  uuidAssistant : String
  nowMs : Nat
  tCreate : Nat
  tUser : Nat
  tOptimistic : Nat
  tFinal : Nat
  randPick : Rat
  randDelay : Rat

/-- Environment of one `deleteChat` call. -/
structure DeleteEnv where
  deleteRes : Except Unit Unit

/-- Environment of one `loadChatSessions` call. -/
structure LoadEnv where
  sessionsRes : Except Unit (List ApiSession)
  firstMsgsRes : Except Unit (List ApiMessage)

/-- `ChatProvider.createNewChat`. -/
def createNewChat (env : CreateEnv) (s : ChatState) : OpOut :=
  if !s.isAuthenticated then
    let newChat : ChatHistory :=
      ⟨"local-" ++ toString env.nowMs, "New Conversation", [], env.tNew, env.tNew⟩
    ⟨{ s with chatHistories := newChat :: s.chatHistories, currentChat := some newChat },
      [], [], none⟩
  else
    match env.createRes with
    | .ok sess =>
      let newChat := convertApiChatToLocal sess []
      ⟨{ s with chatHistories := newChat :: s.chatHistories, currentChat := some newChat },
        [.createSession], [], none⟩
    | .error _ => ⟨s, [.createSession], [], none⟩

/-- `ChatProvider.selectChat`: a local-namespace id only moves the current
pointer; a remote id (when authenticated) fetches the message log and replaces
the in-memory copy held by the current pointer (the Directory entry keeps its
stale list). -/
def selectChat (env : SelectEnv) (chatId : String) (s : ChatState) : OpOut :=
  if isLocalId chatId then
    match s.chatHistories.find? (fun h => h.id == chatId) with
    | some localChat => ⟨{ s with currentChat := some localChat }, [], [], none⟩
    | none => ⟨s, [], [], none⟩
  else if !s.isAuthenticated then ⟨s, [], [], none⟩
  else
    match env.msgsRes with
    | .error _ => ⟨{ s with isLoading := false }, [.getMessages (parseIntS chatId)], [], none⟩
    | .ok messages =>
      match s.chatHistories.find? (fun h => h.id == chatId) with
      | some session =>
        ⟨{ s with currentChat := some { session with messages := messages.map convMsg }, isLoading := false },
          [.getMessages (parseIntS chatId)], [], none⟩
      | none => ⟨{ s with isLoading := false }, [.getMessages (parseIntS chatId)], [], none⟩

/-- The error handler of `sendMessage`: revert the optimistic update by
putting the pre-append snapshot back into the current pointer and the
Directory entry. -/
def rollbackState (sOpt : ChatState) (target : ChatHistory) : ChatState :=
  { sOpt with currentChat := some target
              chatHistories := sOpt.chatHistories.map (fun h => if h.id == target.id then target else h) }

/-- The optimistic update of `sendMessage`: append the user message, and on a
first message speculatively set the title to the first 30 characters of the
content followed by an ellipsis. -/
def optimisticChat (env : SendEnv) (content : String) (target : ChatHistory) : ChatHistory :=
  let userMessage : Msg := ⟨env.uuidUser, content, .user, env.tUser⟩
  { target with
    messages := target.messages ++ [userMessage]
    title := if target.messages.isEmpty then jsSlice content 30 ++ "..." else target.title
    updatedAt := env.tOptimistic }

/-- The body of `ChatProvider.sendMessage` from the optimistic append onwards,
with `target` the resolved target session and `calls0` the calls made during
target resolution. -/
def sendCore (env : SendEnv) (content : String) (s : ChatState) (target : ChatHistory)
    (calls0 : List NetCall) : OpOut :=
  let updatedChat : ChatHistory := optimisticChat env content target
  let sOpt : ChatState :=
    { s with currentChat := some updatedChat
             chatHistories := s.chatHistories.map (fun h => if h.id == target.id then updatedChat else h) }
  if s.isAuthenticated && !isLocalId target.id then
    let sid := parseIntS target.id
    match env.sendRes with
    | .error _ => ⟨rollbackState sOpt target, calls0 ++ [.sendMsg sid], [], some sOpt⟩
    | .ok _ =>
      match env.msgsRes with
      | .error _ =>
        ⟨rollbackState sOpt target, calls0 ++ [.sendMsg sid, .getMessages sid], [], some sOpt⟩
      | .ok updatedMessages =>
        let finalChat : ChatHistory :=
          { updatedChat with messages := updatedMessages.map convMsg, updatedAt := env.tFinal }
        let sFin : ChatState :=
          { sOpt with currentChat := some finalChat
                      chatHistories := sOpt.chatHistories.map (fun h => if h.id == target.id then finalChat else h) }
        if target.messages.isEmpty then
          match env.titleRes with
          | .ok newTitle =>
            let chatWithTitle := { finalChat with title := newTitle }
            ⟨{ sFin with currentChat := some chatWithTitle
                         chatHistories := sFin.chatHistories.map (fun h => if h.id == target.id then chatWithTitle else h) },
              calls0 ++ [.sendMsg sid, .getMessages sid, .updateTitle sid], [], some sOpt⟩
          | .error _ =>
            ⟨sFin, calls0 ++ [.sendMsg sid, .getMessages sid, .updateTitle sid], [], some sOpt⟩
        else ⟨sFin, calls0 ++ [.sendMsg sid, .getMessages sid], [], some sOpt⟩
  else
    let responseContent :=
      mockResponses.getD (Int.floor (env.randPick * (mockResponses.length : Rat))).toNat ""
    let delay : Rat := 1000 + env.randDelay * 2000
    let aiMessage : Msg := ⟨env.uuidAssistant, responseContent, .assistant, env.tFinal⟩
    let finalChat : ChatHistory :=
      { updatedChat with messages := updatedChat.messages ++ [aiMessage], updatedAt := env.tFinal }
    ⟨{ sOpt with currentChat := some finalChat
                 chatHistories := sOpt.chatHistories.map (fun h => if h.id == target.id then finalChat else h) },
      calls0, [delay], some sOpt⟩

/-- `ChatProvider.sendMessage`: resolve the target session (creating one when
none is current — remote when authenticated, local otherwise), then run the
optimistic-append/dispatch/rollback body. -/
def sendMessage (env : SendEnv) (content : String) (s : ChatState) : OpOut :=
  match s.currentChat with
  | some target => sendCore env content s target []
  | none =>
    if s.isAuthenticated then
      match env.createRes with
      | .error _ => ⟨s, [.createSession], [], none⟩
      | .ok sess =>
        let target := convertApiChatToLocal sess []
        sendCore env content
          { s with chatHistories := target :: s.chatHistories, currentChat := some target }
          target [.createSession]
    else
      let target : ChatHistory :=
        ⟨"local-" ++ toString env.nowMs, "New Conversation", [], env.tCreate, env.tCreate⟩
      sendCore env content
        { s with chatHistories := target :: s.chatHistories, currentChat := some target }
        target []

/-- `ChatProvider.deleteChat`. -/
def deleteChat (env : DeleteEnv) (chatId : String) (s : ChatState) : OpOut :=
  if isLocalId chatId then
    let updatedHistories := s.chatHistories.filter (fun h => h.id != chatId)
    let cur := if s.currentChat.any (fun c => c.id == chatId) then updatedHistories.head?
               else s.currentChat
    ⟨{ s with chatHistories := updatedHistories, currentChat := cur }, [], [], none⟩
  else if !s.isAuthenticated then ⟨s, [], [], none⟩
  else
    match env.deleteRes with
    | .error _ => ⟨s, [.deleteSession (parseIntS chatId)], [], none⟩
    | .ok _ =>
      let updatedHistories := s.chatHistories.filter (fun h => h.id != chatId)
      let cur := if s.currentChat.any (fun c => c.id == chatId) then updatedHistories.head?
                 else s.currentChat
      ⟨{ s with chatHistories := updatedHistories, currentChat := cur },
        [.deleteSession (parseIntS chatId)], [], none⟩

/-- `ChatProvider.loadChatSessions`: replace the Directory with the server
list and, when at least one session exists and nothing is current, load the
most recent session's messages and make it current (a failure of that load is
caught after the Directory has already been replaced). -/
def loadChatSessions (env : LoadEnv) (s : ChatState) : OpOut :=
  if !s.isAuthenticated then
    ⟨{ s with chatHistories := [], currentChat := none }, [], [], none⟩
  else
    match env.sessionsRes with
    | .error _ => ⟨{ s with isLoading := false }, [.getSessions], [], none⟩
    | .ok sessions =>
      let histories := sessions.map (fun sess => convertApiChatToLocal sess [])
      match sessions, s.currentChat with
      | sess0 :: _, none =>
        match env.firstMsgsRes with
        | .ok messages =>
          ⟨{ s with chatHistories := histories
                    currentChat := some (convertApiChatToLocal sess0 messages)
                    isLoading := false },
            [.getSessions, .getMessages (parseIntS (toString sess0.id))], [], none⟩
        | .error _ =>
          ⟨{ s with chatHistories := histories, isLoading := false },
            [.getSessions, .getMessages (parseIntS (toString sess0.id))], [], none⟩
      | _, _ =>
        ⟨{ s with chatHistories := histories, isLoading := false }, [.getSessions], [], none⟩

/-- The `useEffect` that reacts to authentication-state transitions: on
authenticated, run `loadChatSessions`; on unauthenticated, keep only
local-namespace sessions and clear the current pointer unless it holds a
local session. -/
def authEffect (env : LoadEnv) (s : ChatState) : OpOut :=
  if s.isAuthenticated then loadChatSessions env s
  else
    ⟨{ s with chatHistories := s.chatHistories.filter (fun h => isLocalId h.id)
              currentChat := match s.currentChat with
                | some c => if isLocalId c.id then some c else none
                | none => none },
      [], [], none⟩

/-- Invariant: while unauthenticated, every Directory session and any current
session is in the local id namespace. -/
def anonLocalOnly (s : ChatState) : Prop :=
  s.isAuthenticated = false →
    (∀ h ∈ s.chatHistories, isLocalId h.id = true) ∧
    (∀ c, s.currentChat = some c → isLocalId c.id = true)

/-- States reachable by the Chat Synchronization Core from the initial mount
state through its operations and authentication transitions. -/
inductive Reachable : ChatState → Prop where
  | init : Reachable ⟨[], none, false, false⟩
  | create (env : CreateEnv) {s : ChatState} : Reachable s → Reachable (createNewChat env s).st
  | select (env : SelectEnv) (chatId : String) {s : ChatState} :
      Reachable s → Reachable (selectChat env chatId s).st
  | send (env : SendEnv) (content : String) {s : ChatState} :
      Reachable s → Reachable (sendMessage env content s).st
  | delete (env : DeleteEnv) (chatId : String) {s : ChatState} :
      Reachable s → Reachable (deleteChat env chatId s).st
  | load (env : LoadEnv) {s : ChatState} : Reachable s → Reachable (loadChatSessions env s).st
  | authChange (env : LoadEnv) (b : Bool) {s : ChatState} :
      Reachable s → Reachable (authEffect env { s with isAuthenticated := b }).st

/-! ## Theorems -/

theorem isPrefixOf_append (l t : List Char) : l.isPrefixOf (l ++ t) = true := by
  induction l with
  | nil => simp [List.isPrefixOf]
  | cons a as ih => simp [List.isPrefixOf, ih]

theorem jsStartsWith_append (a b : String) :
    jsStartsWith (a ++ b) a = true := by
  show (a.data.isPrefixOf (a ++ b).data) = true
  have h : (a ++ b).data = a.data ++ b.data := rfl
  rw [h]
  exact isPrefixOf_append a.data b.data

/-- C1, counterexample: in the environment where every fetch — including the
fetches that `refreshToken()` directs at `/auth/refresh` — answers HTTP 401,
a request issued with an access token attached and a refresh token stored
makes one refresh-endpoint fetch per remaining unit of fuel (4 with fuel 5,
and in the unbounded real code a refresh loop that never returns: the result
is `none`), and the Token Store is never cleared.  This refutes "exactly one
refresh call is made ... there is never a retry loop". -/
theorem refresh_loop_on_refresh_401 :
    (runRequest (fun _ _ => FetchOutcome.httpErr 401) 5 "/x"
      ⟨⟨some "tok", some "ref"⟩, 0, []⟩).2.log.count "/auth/refresh" = 4 ∧
    (runRequest (fun _ _ => FetchOutcome.httpErr 401) 5 "/x"
      ⟨⟨some "tok", some "ref"⟩, 0, []⟩).1 = none ∧
    (runRequest (fun _ _ => FetchOutcome.httpErr 401) 5 "/x"
      ⟨⟨some "tok", some "ref"⟩, 0, []⟩).2.st = ⟨some "tok", some "ref"⟩ := by
  decide

/-- C1, amended: for every request that fails with 401 while an access token
is attached and a refresh token is stored, PROVIDED the resulting refresh
attempt is not itself answered with HTTP 401 (it may succeed, fail with any
other status, or fail at the transport), exactly one refresh call is made and
the original request is retried at most once; and whenever the run ends in an
error, that error is the authentication-failure error and the Token Store
ends empty. -/
theorem request_single_refresh_and_retry
    (env : Nat → String → FetchOutcome) (ep a r : String) (f : Nat)
    (hep : ep ≠ "/auth/refresh")
    (h0 : env 0 ep = .httpErr 401)
    (h1 : env 1 "/auth/refresh" ≠ .httpErr 401) :
    ((runRequest env (f + 2) ep ⟨⟨some a, some r⟩, 0, []⟩).2.log.count "/auth/refresh" = 1) ∧
    ((runRequest env (f + 2) ep ⟨⟨some a, some r⟩, 0, []⟩).2.log.count ep ≤ 2) ∧
    ((runRequest env (f + 2) ep ⟨⟨some a, some r⟩, 0, []⟩).1 ≠ none) ∧
    (∀ e, (runRequest env (f + 2) ep ⟨⟨some a, some r⟩, 0, []⟩).1 = some (.error e) →
      e = ReqError.authFailed ∧
      (runRequest env (f + 2) ep ⟨⟨some a, some r⟩, 0, []⟩).2.st = ⟨none, none⟩) := by
  have hne : ("/auth/refresh" : String) ≠ ep := fun h => hep h.symm
  cases h2 : env 1 "/auth/refresh" with
  | ok a1 r1 =>
    cases h3 : env 2 ep with
    | ok a2 r2 =>
      simp [runRequest, ApiState.logout, h0, h2, h3, List.count_cons, List.count_append,
        hep, hne]
    | httpErr s2 =>
      simp [runRequest, ApiState.logout, h0, h2, h3, List.count_cons, List.count_append,
        hep, hne]
    | netErr =>
      simp [runRequest, ApiState.logout, h0, h2, h3, List.count_cons, List.count_append,
        hep, hne]
  | httpErr s1 =>
    have hs : s1 ≠ 401 := by
      intro h; exact h1 (by rw [h2, h])
    simp [runRequest, ApiState.logout, h0, h2, hs, List.count_cons, List.count_append,
      hep, hne]
  | netErr =>
    simp [runRequest, ApiState.logout, h0, h2, List.count_cons, List.count_append,
      hep, hne]

/-- Witness for the amended C1 theorem at a concrete environment: the original
request 401s, the refresh succeeds, and the retry succeeds. -/
theorem request_single_refresh_and_retry_witness :
    ((runRequest (fun i _ => if i = 0 then FetchOutcome.httpErr 401 else FetchOutcome.ok "A" "R")
      (0 + 2) "/x" ⟨⟨some "t", some "r"⟩, 0, []⟩).2.log.count "/auth/refresh" = 1) ∧
    ((runRequest (fun i _ => if i = 0 then FetchOutcome.httpErr 401 else FetchOutcome.ok "A" "R")
      (0 + 2) "/x" ⟨⟨some "t", some "r"⟩, 0, []⟩).2.log.count "/x" ≤ 2) ∧
    ((runRequest (fun i _ => if i = 0 then FetchOutcome.httpErr 401 else FetchOutcome.ok "A" "R")
      (0 + 2) "/x" ⟨⟨some "t", some "r"⟩, 0, []⟩).1 ≠ none) ∧
    (∀ e, (runRequest (fun i _ => if i = 0 then FetchOutcome.httpErr 401 else FetchOutcome.ok "A" "R")
      (0 + 2) "/x" ⟨⟨some "t", some "r"⟩, 0, []⟩).1 = some (.error e) →
      e = ReqError.authFailed ∧
      (runRequest (fun i _ => if i = 0 then FetchOutcome.httpErr 401 else FetchOutcome.ok "A" "R")
        (0 + 2) "/x" ⟨⟨some "t", some "r"⟩, 0, []⟩).2.st = ⟨none, none⟩) :=
  request_single_refresh_and_retry
    (fun i _ => if i = 0 then FetchOutcome.httpErr 401 else FetchOutcome.ok "A" "R")
    "/x" "t" "r" 0 (by decide) (by decide) (by decide)

/-- C10: `isAuthenticated` is the conjunction of a fetched user profile and a
stored access token; and at startup, a stored access token whose profile
fetch fails leaves the app anonymous with the Token Store cleared. -/
theorem isAuthenticated_conjunction_startup
    (api : ApiState) (t : String) (hTok : api.accessToken = some t) :
    (∀ u a, isAuthenticatedView u a = true ↔ (u.isSome = true ∧ a.accessToken.isSome = true)) ∧
    (checkAuth (.error ()) none api = (none, ⟨none, none⟩)) ∧
    (isAuthenticatedView (checkAuth (.error ()) none api).1
      (checkAuth (.error ()) none api).2 = false) := by
  refine ⟨?_, ?_, ?_⟩
  · intro u a
    simp [isAuthenticatedView, ApiState.isAuthenticated]
  · simp [checkAuth, ApiState.isAuthenticated, ApiState.logout, hTok]
  · simp [checkAuth, isAuthenticatedView, ApiState.isAuthenticated, ApiState.logout, hTok]

/-- Witness for C10 at a concrete token state. -/
theorem isAuthenticated_conjunction_startup_witness :
    (∀ u a, isAuthenticatedView u a = true ↔ (u.isSome = true ∧ a.accessToken.isSome = true)) ∧
    (checkAuth (.error ()) none ⟨some "tok", some "ref"⟩ = (none, ⟨none, none⟩)) ∧
    (isAuthenticatedView (checkAuth (.error ()) none ⟨some "tok", some "ref"⟩).1
      (checkAuth (.error ()) none ⟨some "tok", some "ref"⟩).2 = false) :=
  isAuthenticated_conjunction_startup ⟨some "tok", some "ref"⟩ "tok" rfl

/-! ## Helper lemmas about replace-by-id updates -/

theorem mem_replaceById {l : List ChatHistory} {tid : String} {x y : ChatHistory}
    (hy : y ∈ l.map (fun h => if h.id == tid then x else h)) (hid : y.id = tid) :
    y = x := by
  rcases List.mem_map.mp hy with ⟨h, hmem, heq⟩
  by_cases hc : h.id == tid
  · rw [if_pos hc] at heq; exact heq.symm
  · rw [if_neg hc] at heq
    subst heq
    exact absurd (by simp [hid]) hc

theorem sendCore_optimistic (env : SendEnv) (content : String) (s : ChatState)
    (target : ChatHistory) (calls0 : List NetCall) :
    (sendCore env content s target calls0).optimistic =
      some { s with
        currentChat := some (optimisticChat env content target)
        chatHistories := s.chatHistories.map
          (fun h => if h.id == target.id then optimisticChat env content target else h) } := by
  unfold sendCore
  rcases env.sendRes with _ | _ <;> rcases env.msgsRes with _ | _ <;>
    rcases env.titleRes with _ | _ <;> simp only <;> split <;> try rfl
  all_goals split <;> rfl

/-! ## C2, C3, C5, C9: `sendMessage` properties -/

/-- C2: a `sendMessage` on an authenticated, remote session whose dispatch
succeeds leaves the current pointer and the session's Directory entry holding
exactly the re-fetched server message log. -/
theorem sendMessage_reconciles_with_server
    (env : SendEnv) (content : String) (s : ChatState) (c : ChatHistory)
    (msgs : List ApiMessage)
    (hAuth : s.isAuthenticated = true)
    (hCur : s.currentChat = some c)
    (hRemote : isLocalId c.id = false)
    (hSend : env.sendRes = .ok ())
    (hMsgs : env.msgsRes = .ok msgs) :
    (∃ fc, (sendMessage env content s).st.currentChat = some fc ∧
      fc.messages = msgs.map convMsg) ∧
    (∀ h ∈ (sendMessage env content s).st.chatHistories,
      h.id = c.id → h.messages = msgs.map convMsg) := by
  simp only [sendMessage, hCur]
  simp only [sendCore, hAuth, hRemote, hSend, hMsgs, Bool.not_false, Bool.true_and]
  by_cases hemp : c.messages.isEmpty
  · rcases htr : env.titleRes with t | e <;>
    · simp only [hemp, htr, if_true, if_false]
      constructor
      · exact ⟨_, rfl, rfl⟩
      · intro h hmem hid
        have := mem_replaceById hmem hid
        subst this
        rfl
  · simp only [hemp, if_false, Bool.false_eq_true]
    constructor
    · exact ⟨_, rfl, rfl⟩
    · intro h hmem hid
      have := mem_replaceById hmem hid
      subst this
      rfl

/-- Witness for C2 at concrete inputs. -/
theorem sendMessage_reconciles_with_server_witness :
    (∃ fc, (sendMessage
        ⟨.ok ⟨7, "New Conversation", 1, 1⟩, .ok (), .ok [⟨1, "hi", true, 5⟩, ⟨2, "yo", false, 6⟩],
         .ok "Auto", "u1", "u2", 99, 10, 11, 12, 13, 0, 0⟩ "hi"
        ⟨[⟨"7", "New Conversation", [], 1, 1⟩], some ⟨"7", "New Conversation", [], 1, 1⟩, true, false⟩).st.currentChat
          = some fc ∧
      fc.messages = [⟨1, "hi", true, 5⟩, ⟨2, "yo", false, 6⟩].map convMsg) ∧
    (∀ h ∈ (sendMessage
        ⟨.ok ⟨7, "New Conversation", 1, 1⟩, .ok (), .ok [⟨1, "hi", true, 5⟩, ⟨2, "yo", false, 6⟩],
         .ok "Auto", "u1", "u2", 99, 10, 11, 12, 13, 0, 0⟩ "hi"
        ⟨[⟨"7", "New Conversation", [], 1, 1⟩], some ⟨"7", "New Conversation", [], 1, 1⟩, true, false⟩).st.chatHistories,
      h.id = "7" → h.messages = [⟨1, "hi", true, 5⟩, ⟨2, "yo", false, 6⟩].map convMsg) :=
  sendMessage_reconciles_with_server
    ⟨.ok ⟨7, "New Conversation", 1, 1⟩, .ok (), .ok [⟨1, "hi", true, 5⟩, ⟨2, "yo", false, 6⟩],
     .ok "Auto", "u1", "u2", 99, 10, 11, 12, 13, 0, 0⟩ "hi"
    ⟨[⟨"7", "New Conversation", [], 1, 1⟩], some ⟨"7", "New Conversation", [], 1, 1⟩, true, false⟩
    ⟨"7", "New Conversation", [], 1, 1⟩ [⟨1, "hi", true, 5⟩, ⟨2, "yo", false, 6⟩]
    rfl rfl (by decide) rfl rfl

/-- C3: when the dispatch step of `sendMessage` fails (the send call or the
re-fetch throws), the final state holds the pre-optimistic-append snapshot in
both the current pointer and the session's Directory entry: the optimistic
user message is discarded and messages, title and updatedAt are exactly the
snapshot's. -/
theorem sendMessage_rollback_restores_snapshot
    (env : SendEnv) (content : String) (s : ChatState) (c : ChatHistory)
    (hAuth : s.isAuthenticated = true)
    (hCur : s.currentChat = some c)
    (hRemote : isLocalId c.id = false)
    (hFail : env.sendRes = .error () ∨ (env.sendRes = .ok () ∧ env.msgsRes = .error ())) :
    (sendMessage env content s).st =
      { s with
        currentChat := some c
        chatHistories := s.chatHistories.map (fun h => if h.id == c.id then c else h) } := by
  simp only [sendMessage, hCur]
  have hopt : (optimisticChat env content c).id = c.id := rfl
  rcases hFail with hs | ⟨hs, hm⟩
  · simp only [sendCore, hAuth, hRemote, hs, Bool.not_false, Bool.true_and, if_true]
    simp [rollbackState]
    intro a ha
    by_cases hc : a.id = c.id
    · simp [hc, hopt]
    · simp [hc]
  · simp only [sendCore, hAuth, hRemote, hs, hm, Bool.not_false, Bool.true_and, if_true]
    simp [rollbackState]
    intro a ha
    by_cases hc : a.id = c.id
    · simp [hc, hopt]
    · simp [hc]

/-- Witness for C3 at concrete inputs (the send call fails). -/
theorem sendMessage_rollback_restores_snapshot_witness :
    (sendMessage
        ⟨.ok ⟨7, "t", 1, 1⟩, .error (), .error (), .error (), "u1", "u2", 99, 10, 11, 12, 13, 0, 0⟩
        "hi" ⟨[⟨"7", "t", [⟨"m0", "old", .user, 2⟩], 1, 1⟩],
              some ⟨"7", "t", [⟨"m0", "old", .user, 2⟩], 1, 1⟩, true, false⟩).st =
      { chatHistories := [⟨"7", "t", [⟨"m0", "old", .user, 2⟩], 1, 1⟩].map
          (fun h => if h.id == "7" then ⟨"7", "t", [⟨"m0", "old", .user, 2⟩], 1, 1⟩ else h)
        currentChat := some ⟨"7", "t", [⟨"m0", "old", .user, 2⟩], 1, 1⟩
        isAuthenticated := true
        isLoading := false } :=
  sendMessage_rollback_restores_snapshot
    ⟨.ok ⟨7, "t", 1, 1⟩, .error (), .error (), .error (), "u1", "u2", 99, 10, 11, 12, 13, 0, 0⟩
    "hi" ⟨[⟨"7", "t", [⟨"m0", "old", .user, 2⟩], 1, 1⟩],
          some ⟨"7", "t", [⟨"m0", "old", .user, 2⟩], 1, 1⟩, true, false⟩
    ⟨"7", "t", [⟨"m0", "old", .user, 2⟩], 1, 1⟩
    rfl rfl (by decide) (Or.inl rfl)

/-- C5: the optimistic update published by `sendMessage` appends the user
message and, exactly when the target's message list was empty, sets the title
to the first 30 characters of the content with "..." always appended; a
non-empty list leaves the title unchanged. -/
theorem sendMessage_speculative_title
    (env : SendEnv) (content : String) (s : ChatState) (c : ChatHistory)
    (hCur : s.currentChat = some c) :
    ∃ os oc, (sendMessage env content s).optimistic = some os ∧
      os.currentChat = some oc ∧
      oc.id = c.id ∧
      oc.messages = c.messages ++ [⟨env.uuidUser, content, .user, env.tUser⟩] ∧
      (c.messages = [] → oc.title = jsSlice content 30 ++ "...") ∧
      (c.messages ≠ [] → oc.title = c.title) := by
  simp only [sendMessage, hCur, sendCore_optimistic]
  refine ⟨_, _, rfl, rfl, rfl, rfl, ?_, ?_⟩
  · intro h
    simp [optimisticChat, h]
  · intro h
    simp [optimisticChat, List.isEmpty_iff, h]

/-- Witness for C5: an anonymous send of the 5-character content "Hello" into
an empty local session speculatively titles it "Hello..." — the ellipsis is
appended although no truncation happened. -/
theorem sendMessage_speculative_title_witness :
    (∃ os oc, (sendMessage
        ⟨.error (), .error (), .error (), .error (), "u1", "u2", 99, 10, 11, 12, 13, 0, 0⟩
        "Hello" ⟨[⟨"local-5", "New Conversation", [], 0, 0⟩],
                 some ⟨"local-5", "New Conversation", [], 0, 0⟩, false, false⟩).optimistic = some os ∧
      os.currentChat = some oc ∧
      oc.id = "local-5" ∧
      oc.messages = [] ++ [⟨"u1", "Hello", .user, 11⟩] ∧
      (([] : List Msg) = [] → oc.title = jsSlice "Hello" 30 ++ "...") ∧
      (([] : List Msg) ≠ [] → oc.title = "New Conversation")) ∧
    jsSlice "Hello" 30 ++ "..." = "Hello..." :=
  ⟨sendMessage_speculative_title
      ⟨.error (), .error (), .error (), .error (), "u1", "u2", 99, 10, 11, 12, 13, 0, 0⟩
      "Hello" ⟨[⟨"local-5", "New Conversation", [], 0, 0⟩],
               some ⟨"local-5", "New Conversation", [], 0, 0⟩, false, false⟩
      ⟨"local-5", "New Conversation", [], 0, 0⟩ rfl,
    by decide⟩

/-- C9: `sendMessage` decides "first message" solely from the in-memory list
being empty: on a remote session held with an empty local message copy it
both overwrites the title speculatively and issues the server auto-title
request (after the send and the re-fetch). -/
theorem first_message_test_is_in_memory
    (env : SendEnv) (content : String) (s : ChatState) (c : ChatHistory)
    (msgs : List ApiMessage)
    (hAuth : s.isAuthenticated = true)
    (hCur : s.currentChat = some c)
    (hRemote : isLocalId c.id = false)
    (hEmpty : c.messages = [])
    (hSend : env.sendRes = .ok ())
    (hMsgs : env.msgsRes = .ok msgs) :
    (sendMessage env content s).calls =
      [.sendMsg (parseIntS c.id), .getMessages (parseIntS c.id), .updateTitle (parseIntS c.id)] ∧
    (∃ os oc, (sendMessage env content s).optimistic = some os ∧
      os.currentChat = some oc ∧ oc.title = jsSlice content 30 ++ "...") := by
  constructor
  · simp only [sendMessage, hCur]
    simp only [sendCore, hAuth, hRemote, hSend, hMsgs, hEmpty, Bool.not_false, Bool.true_and]
    rcases htr : env.titleRes with t | e <;> simp [htr]
  · simp only [sendMessage, hCur, sendCore_optimistic]
    exact ⟨_, _, rfl, rfl, by simp [optimisticChat, hEmpty]⟩

/-- Witness for C9 at concrete inputs: the remote session is non-fresh on the
server (the re-fetched log already holds older messages) but its local copy is
empty, and the title is nevertheless overwritten and auto-title requested. -/
theorem first_message_test_is_in_memory_witness :
    ((sendMessage
        ⟨.ok ⟨7, "t", 1, 1⟩, .ok (), .ok [⟨1, "old", true, 2⟩, ⟨2, "hi", true, 5⟩],
         .error (), "u1", "u2", 99, 10, 11, 12, 13, 0, 0⟩ "hi"
        ⟨[⟨"7", "Server title", [], 1, 1⟩], some ⟨"7", "Server title", [], 1, 1⟩, true, false⟩).calls =
      [.sendMsg (parseIntS "7"), .getMessages (parseIntS "7"), .updateTitle (parseIntS "7")]) ∧
    (∃ os oc, (sendMessage
        ⟨.ok ⟨7, "t", 1, 1⟩, .ok (), .ok [⟨1, "old", true, 2⟩, ⟨2, "hi", true, 5⟩],
         .error (), "u1", "u2", 99, 10, 11, 12, 13, 0, 0⟩ "hi"
        ⟨[⟨"7", "Server title", [], 1, 1⟩], some ⟨"7", "Server title", [], 1, 1⟩, true, false⟩).optimistic
        = some os ∧
      os.currentChat = some oc ∧ oc.title = jsSlice "hi" 30 ++ "...") :=
  first_message_test_is_in_memory
    ⟨.ok ⟨7, "t", 1, 1⟩, .ok (), .ok [⟨1, "old", true, 2⟩, ⟨2, "hi", true, 5⟩],
     .error (), "u1", "u2", 99, 10, 11, 12, 13, 0, 0⟩ "hi"
    ⟨[⟨"7", "Server title", [], 1, 1⟩], some ⟨"7", "Server title", [], 1, 1⟩, true, false⟩
    ⟨"7", "Server title", [], 1, 1⟩ [⟨1, "old", true, 2⟩, ⟨2, "hi", true, 5⟩]
    rfl rfl (by decide) rfl rfl rfl

/-! ## Helper lemmas and the namespace invariant for C8 -/

theorem mem_replaceById_or {l : List ChatHistory} {tid : String} {x y : ChatHistory}
    (hy : y ∈ l.map (fun h => if h.id == tid then x else h)) : y = x ∨ y ∈ l := by
  rcases List.mem_map.mp hy with ⟨h, hmem, heq⟩
  by_cases hc : h.id == tid
  · rw [if_pos hc] at heq; exact Or.inl heq.symm
  · rw [if_neg hc] at heq; exact Or.inr (heq ▸ hmem)

theorem mem_replaceById_id {l : List ChatHistory} {tid : String} {x y : ChatHistory}
    (hy : y ∈ l.map (fun h => if h.id == tid then x else h))
    (hx : x.id = tid) : y.id = tid ∨ y ∈ l := by
  rcases mem_replaceById_or hy with h | h
  · exact Or.inl (h ▸ hx)
  · exact Or.inr h

theorem mem_replace2 {l : List ChatHistory} {tid : String} {x1 x2 y : ChatHistory}
    (hy : y ∈ (l.map (fun h => if h.id == tid then x1 else h)).map
      (fun h => if h.id == tid then x2 else h))
    (h1 : x1.id = tid) (h2 : x2.id = tid) :
    y.id = tid ∨ y ∈ l := by
  rcases mem_replaceById_id hy h2 with h | h
  · exact Or.inl h
  · exact mem_replaceById_id h h1

theorem mem_replace3 {l : List ChatHistory} {tid : String} {x1 x2 x3 y : ChatHistory}
    (hy : y ∈ ((l.map (fun h => if h.id == tid then x1 else h)).map
      (fun h => if h.id == tid then x2 else h)).map (fun h => if h.id == tid then x3 else h))
    (h1 : x1.id = tid) (h2 : x2.id = tid) (h3 : x3.id = tid) :
    y.id = tid ∨ y ∈ l := by
  rcases mem_replaceById_id hy h3 with h | h
  · exact Or.inl h
  · exact mem_replace2 h h1 h2

theorem sendCore_shape (env : SendEnv) (content : String) (s : ChatState)
    (target : ChatHistory) (calls0 : List NetCall) :
    (sendCore env content s target calls0).st.isAuthenticated = s.isAuthenticated ∧
    (∀ y ∈ (sendCore env content s target calls0).st.chatHistories,
        y.id = target.id ∨ y ∈ s.chatHistories) ∧
    (∀ c, (sendCore env content s target calls0).st.currentChat = some c → c.id = target.id) := by
  rcases hs : env.sendRes with u | u <;> rcases hm : env.msgsRes with ms | ms <;>
    rcases ht : env.titleRes with t | t <;>
    cases hcond : (s.isAuthenticated && !isLocalId target.id) <;>
    cases hemp : target.messages.isEmpty <;>
    simp only [sendCore, hs, hm, ht, hcond, hemp, rollbackState, Bool.false_eq_true,
      Bool.true_eq_false, if_true, if_false, ite_true, ite_false] <;>
    refine ⟨?_, fun y hy => ?_, fun c hc => ?_⟩ <;>
    first
      | rfl
      | trivial
      | exact mem_replace2 hy rfl rfl
      | exact mem_replace3 hy rfl rfl rfl
      | (injection hc with hc2; cases hc2; rfl)

theorem replaceById_map_id (l : List ChatHistory) (tid : String) (x : ChatHistory)
    (hx : x.id = tid) :
    (l.map (fun h => if h.id == tid then x else h)).map (fun h => h.id)
      = l.map (fun h => h.id) := by
  induction l with
  | nil => rfl
  | cons a l ih =>
    simp only [List.map_cons, ih]
    by_cases hc : a.id == tid
    · simp only [if_pos hc, hx]
      have ha : a.id = tid := by simpa using hc
      rw [ha]
    · simp only [if_neg hc]

theorem sendCore_ids (env : SendEnv) (content : String) (s : ChatState)
    (target : ChatHistory) (calls0 : List NetCall) :
    (sendCore env content s target calls0).st.chatHistories.map (fun h => h.id)
      = s.chatHistories.map (fun h => h.id) := by
  rcases hs : env.sendRes with u | u <;> rcases hm : env.msgsRes with ms | ms <;>
    rcases ht : env.titleRes with t | t <;>
    cases hcond : (s.isAuthenticated && !isLocalId target.id) <;>
    cases hemp : target.messages.isEmpty <;>
    simp only [sendCore, hs, hm, ht, hcond, hemp, rollbackState, Bool.false_eq_true,
      Bool.true_eq_false, if_true, if_false, ite_true, ite_false] <;>
    first
      | rfl
      | ((rw [replaceById_map_id, replaceById_map_id, replaceById_map_id]) <;> rfl)
      | ((rw [replaceById_map_id, replaceById_map_id]) <;> rfl)

theorem createNewChat_auth (env : CreateEnv) (s : ChatState) :
    (createNewChat env s).st.isAuthenticated = s.isAuthenticated := by
  cases ha : s.isAuthenticated <;> cases hc : env.createRes <;>
    simp [createNewChat, ha, hc]

theorem selectChat_auth (env : SelectEnv) (chatId : String) (s : ChatState) :
    (selectChat env chatId s).st.isAuthenticated = s.isAuthenticated := by
  cases hl : isLocalId chatId <;> cases ha : s.isAuthenticated <;>
    cases hm : env.msgsRes <;> cases hf : s.chatHistories.find? (fun h => h.id == chatId) <;>
    simp [selectChat, hl, ha, hm, hf]

theorem deleteChat_auth (env : DeleteEnv) (chatId : String) (s : ChatState) :
    (deleteChat env chatId s).st.isAuthenticated = s.isAuthenticated := by
  cases hl : isLocalId chatId <;> cases ha : s.isAuthenticated <;>
    cases hd : env.deleteRes <;>
    simp [deleteChat, hl, ha, hd]

theorem loadChatSessions_auth (env : LoadEnv) (s : ChatState) :
    (loadChatSessions env s).st.isAuthenticated = s.isAuthenticated := by
  cases ha : s.isAuthenticated
  · simp [loadChatSessions, ha]
  · rcases hr : env.sessionsRes with u | sl
    · simp [loadChatSessions, ha, hr]
    · cases hsl : sl <;> cases hc : s.currentChat <;>
        rcases hm : env.firstMsgsRes with v | ms <;>
        simp [loadChatSessions, ha, hr, hsl, hc, hm]

theorem sendMessage_auth (env : SendEnv) (content : String) (s : ChatState) :
    (sendMessage env content s).st.isAuthenticated = s.isAuthenticated := by
  cases hc : s.currentChat with
  | some target =>
    have := (sendCore_shape env content s target []).1
    simpa [sendMessage, hc] using this
  | none =>
    cases ha : s.isAuthenticated
    · simp only [sendMessage, hc, ha, Bool.false_eq_true, if_false]
      rw [(sendCore_shape _ _ _ _ _).1]
    · rcases hcr : env.createRes with u | sess
      · simp [sendMessage, hc, ha, hcr]
      · simp only [sendMessage, hc, ha, if_true]
        rw [hcr]
        simp only
        rw [(sendCore_shape _ _ _ _ _).1]

theorem authEffect_auth (env : LoadEnv) (s : ChatState) :
    (authEffect env s).st.isAuthenticated = s.isAuthenticated := by
  cases ha : s.isAuthenticated
  · simp [authEffect, ha]
  · simp only [authEffect, ha, if_true]
    rw [loadChatSessions_auth]
    exact ha

theorem isLocalId_fresh (x : String) : isLocalId ("local-" ++ x) = true :=
  jsStartsWith_append "local-" x

theorem mem_of_head?_eq_some {α : Type _} {l : List α} {a : α} (h : l.head? = some a) :
    a ∈ l := by
  cases l with
  | nil => simp at h
  | cons x xs => simp at h; simp [h]

theorem anonLocalOnly_create (env : CreateEnv) (s : ChatState) (hs : anonLocalOnly s) :
    anonLocalOnly (createNewChat env s).st := by
  intro hAuth
  rw [createNewChat_auth] at hAuth
  rcases hs hAuth with ⟨hdir, hcur⟩
  constructor
  · intro h hh
    simp [createNewChat, hAuth] at hh
    rcases hh with h1 | h1
    · rw [h1]; exact isLocalId_fresh _
    · exact hdir _ h1
  · intro c hc
    simp [createNewChat, hAuth] at hc
    rw [← hc]
    exact isLocalId_fresh _

theorem anonLocalOnly_select (env : SelectEnv) (chatId : String) (s : ChatState)
    (hs : anonLocalOnly s) : anonLocalOnly (selectChat env chatId s).st := by
  intro hAuth
  rw [selectChat_auth] at hAuth
  rcases hs hAuth with ⟨hdir, hcur⟩
  by_cases hl : isLocalId chatId = true
  · cases hf : s.chatHistories.find? (fun h => h.id == chatId) with
    | some lc =>
      refine ⟨?_, ?_⟩
      · intro h hh
        simp only [selectChat, hl, if_true, hf] at hh
        exact hdir _ hh
      · intro c hc
        simp only [selectChat, hl, if_true, hf] at hc
        injection hc with hc2
        rw [← hc2]
        exact hdir _ (List.mem_of_find?_eq_some hf)
    | none =>
      simp only [selectChat, hl, if_true, hf]
      exact ⟨hdir, hcur⟩
  · have hlf : isLocalId chatId = false := by simpa using hl
    simp only [selectChat, hlf, hAuth, Bool.false_eq_true, if_false, Bool.not_false, if_true]
    exact ⟨hdir, hcur⟩

theorem anonLocalOnly_delete (env : DeleteEnv) (chatId : String) (s : ChatState)
    (hs : anonLocalOnly s) : anonLocalOnly (deleteChat env chatId s).st := by
  intro hAuth
  rw [deleteChat_auth] at hAuth
  rcases hs hAuth with ⟨hdir, hcur⟩
  by_cases hl : isLocalId chatId = true
  · refine ⟨?_, ?_⟩
    · intro h hh
      simp only [deleteChat, hl, if_true] at hh
      exact hdir _ (List.mem_of_mem_filter hh)
    · intro c hc
      simp only [deleteChat, hl, if_true] at hc
      by_cases hany : s.currentChat.any (fun x => x.id == chatId) = true
      · rw [if_pos hany] at hc
        exact hdir _ (List.mem_of_mem_filter (mem_of_head?_eq_some hc))
      · rw [if_neg hany] at hc
        exact hcur _ hc
  · have hlf : isLocalId chatId = false := by simpa using hl
    simp only [deleteChat, hlf, hAuth, Bool.false_eq_true, if_false, Bool.not_false, if_true]
    exact ⟨hdir, hcur⟩

theorem anonLocalOnly_load (env : LoadEnv) (s : ChatState) (hs : anonLocalOnly s) :
    anonLocalOnly (loadChatSessions env s).st := by
  intro hAuth
  rw [loadChatSessions_auth] at hAuth
  simp only [loadChatSessions, hAuth, Bool.not_false, if_true]
  exact ⟨by simp, by simp⟩

theorem anonLocalOnly_send (env : SendEnv) (content : String) (s : ChatState)
    (hs : anonLocalOnly s) : anonLocalOnly (sendMessage env content s).st := by
  intro hAuth
  rw [sendMessage_auth] at hAuth
  rcases hs hAuth with ⟨hdir, hcur⟩
  cases hc : s.currentChat with
  | some target =>
    have hshape := sendCore_shape env content s target []
    have htl : isLocalId target.id = true := hcur _ hc
    refine ⟨?_, ?_⟩
    · intro y hy
      simp only [sendMessage, hc] at hy
      rcases hshape.2.1 y hy with h1 | h1
      · rw [h1]; exact htl
      · exact hdir _ h1
    · intro c hcc
      simp only [sendMessage, hc] at hcc
      have := hshape.2.2 c hcc
      rw [this]; exact htl
  | none =>
    refine ⟨?_, ?_⟩
    · intro y hy
      simp only [sendMessage, hc, hAuth, Bool.false_eq_true, if_false] at hy
      rcases (sendCore_shape _ _ _ _ _).2.1 y hy with h1 | h1
      · rw [h1]; exact isLocalId_fresh _
      · rcases List.mem_cons.mp h1 with h2 | h2
        · rw [h2]; exact isLocalId_fresh _
        · exact hdir _ h2
    · intro c hcc
      simp only [sendMessage, hc, hAuth, Bool.false_eq_true, if_false] at hcc
      have := (sendCore_shape _ _ _ _ _).2.2 c hcc
      rw [this]; exact isLocalId_fresh _

theorem anonLocalOnly_authEffect (env : LoadEnv) (s : ChatState) :
    anonLocalOnly (authEffect env s).st := by
  cases hb : s.isAuthenticated
  · intro _
    refine ⟨?_, ?_⟩
    · intro h hh
      simp only [authEffect, hb, Bool.false_eq_true, if_false] at hh
      exact (List.mem_filter.mp hh).2
    · intro c hc
      simp only [authEffect, hb, Bool.false_eq_true, if_false] at hc
      cases hcur : s.currentChat with
      | none =>
        rw [hcur] at hc
        exact absurd (hc : (none : Option ChatHistory) = some c) (by simp)
      | some c0 =>
        rw [hcur] at hc
        have hc2 : (if isLocalId c0.id = true then some c0 else none) = some c := hc
        by_cases hl : isLocalId c0.id = true
        · rw [if_pos hl] at hc2
          injection hc2 with hc3
          rw [← hc3]; exact hl
        · rw [if_neg hl] at hc2; cases hc2
  · intro hAuth
    rw [authEffect_auth, hb] at hAuth
    cases hAuth

theorem reachable_anonLocalOnly {s : ChatState} (h : Reachable s) : anonLocalOnly s := by
  induction h with
  | init => intro _; exact ⟨by simp, by simp⟩
  | create env h ih => exact anonLocalOnly_create _ _ ih
  | select env chatId h ih => exact anonLocalOnly_select _ _ _ ih
  | send env content h ih => exact anonLocalOnly_send _ _ _ ih
  | delete env chatId h ih => exact anonLocalOnly_delete _ _ _ ih
  | load env h ih => exact anonLocalOnly_load _ _ ih
  | authChange env b h ih => exact anonLocalOnly_authEffect _ _

/-- C8: the session id namespace alone dispatches every operation, for the
whole lifetime of a session, over all reachable states: `selectChat` never
rewrites the Directory; `sendMessage` preserves every Directory id and the
current session id (no local session is ever re-keyed to a remote one in
place); `deleteChat` only removes entries; a local id always takes the
no-network local path, and a remote id always takes the remote path (the
reachability invariant supplies the authentication the remote branch
requires). -/
theorem session_namespace_determines_path
    (s : ChatState) (hs : Reachable s)
    (senv : SelectEnv) (denv : DeleteEnv) (env : SendEnv)
    (chatId content : String) (c : ChatHistory) :
    ((selectChat senv chatId s).st.chatHistories = s.chatHistories) ∧
    (s.currentChat = some c →
      (sendMessage env content s).st.chatHistories.map (fun h => h.id)
        = s.chatHistories.map (fun h => h.id) ∧
      (∀ c2, (sendMessage env content s).st.currentChat = some c2 → c2.id = c.id)) ∧
    (∀ y ∈ (deleteChat denv chatId s).st.chatHistories, y ∈ s.chatHistories) ∧
    (isLocalId chatId = true →
      (selectChat senv chatId s).calls = [] ∧ (deleteChat denv chatId s).calls = []) ∧
    (s.currentChat = some c → isLocalId c.id = true →
      (sendMessage env content s).calls = []) ∧
    (s.currentChat = some c → isLocalId c.id = false →
      ∃ rest, (sendMessage env content s).calls = NetCall.sendMsg (parseIntS c.id) :: rest) ∧
    (isLocalId chatId = false → (∃ h ∈ s.chatHistories, h.id = chatId) →
      (selectChat senv chatId s).calls = [NetCall.getMessages (parseIntS chatId)] ∧
      (deleteChat denv chatId s).calls = [NetCall.deleteSession (parseIntS chatId)]) := by
  refine ⟨?_, ?_, ?_, ?_, ?_, ?_, ?_⟩
  · rcases hm : senv.msgsRes with u | ms <;> cases hl : isLocalId chatId <;>
      cases ha : s.isAuthenticated <;>
      cases hf : s.chatHistories.find? (fun h => h.id == chatId) <;>
      simp [selectChat, hm, hl, ha, hf]
  · intro hcur
    constructor
    · simp only [sendMessage, hcur]
      exact sendCore_ids env content s c []
    · intro c2 hc2
      simp only [sendMessage, hcur] at hc2
      exact (sendCore_shape env content s c []).2.2 c2 hc2
  · intro y hy
    by_cases hl : isLocalId chatId = true
    · simp only [deleteChat, hl, if_true] at hy
      exact List.mem_of_mem_filter hy
    · have hlf : isLocalId chatId = false := by simpa using hl
      cases ha : s.isAuthenticated
      · simp only [deleteChat, hlf, ha, Bool.false_eq_true, if_false, Bool.not_false,
          if_true] at hy
        exact hy
      · rcases hd : denv.deleteRes with u | v
        · simp only [deleteChat, hlf, ha, Bool.false_eq_true, if_false, Bool.not_true, hd] at hy
          exact hy
        · simp only [deleteChat, hlf, ha, Bool.false_eq_true, if_false, Bool.not_true, hd] at hy
          exact List.mem_of_mem_filter hy
  · intro hl
    constructor
    · cases hf : s.chatHistories.find? (fun h => h.id == chatId) <;>
        simp [selectChat, hl, hf]
    · simp [deleteChat, hl]
  · intro hcur hloc
    have hcond : (s.isAuthenticated && !isLocalId c.id) = false := by simp [hloc]
    simp [sendMessage, hcur, sendCore, hcond]
  · intro hcur hloc
    have hauth : s.isAuthenticated = true := by
      cases hb : s.isAuthenticated
      · exfalso
        rcases (reachable_anonLocalOnly hs) hb with ⟨hdir2, hcur2⟩
        have hl2 := hcur2 c hcur
        rw [hl2] at hloc
        cases hloc
      · rfl
    have hcond : (s.isAuthenticated && !isLocalId c.id) = true := by simp [hauth, hloc]
    simp only [sendMessage, hcur, sendCore, hcond, if_true]
    rcases henv : env.sendRes with u | v <;> rcases hm : env.msgsRes with u2 | ms <;>
      cases hemp : c.messages.isEmpty <;> rcases ht : env.titleRes with u3 | t <;>
      simp only [henv, hm, hemp, ht, Bool.false_eq_true, Bool.true_eq_false, if_true,
        if_false, ite_true, ite_false, List.nil_append] <;>
      exact ⟨_, rfl⟩
  · intro hlf hmem
    have hauth : s.isAuthenticated = true := by
      cases hb : s.isAuthenticated
      · exfalso
        rcases (reachable_anonLocalOnly hs) hb with ⟨hdir2, hcur2⟩
        rcases hmem with ⟨h0, hh0, hid0⟩
        have := hdir2 h0 hh0
        rw [hid0] at this
        rw [this] at hlf
        cases hlf
      · rfl
    constructor
    · rcases hm : senv.msgsRes with u | ms
      · simp [selectChat, hlf, hauth, hm]
      · cases hf : s.chatHistories.find? (fun h => h.id == chatId) <;>
          simp [selectChat, hlf, hauth, hm, hf]
    · rcases hd : denv.deleteRes with u | v <;> simp [deleteChat, hlf, hauth, hd]

/-! ## C4, C6, C7: auth-transition, anonymous-mode and deletion properties -/

theorem getD_mem {α : Type _} (l : List α) (n : Nat) (d : α) (h : n < l.length) :
    l.getD n d ∈ l := by
  induction l generalizing n with
  | nil => simp at h
  | cons a l ih =>
    cases n with
    | zero => simp [List.getD]
    | succ n =>
      simp only [List.getD_cons_succ]
      exact List.mem_cons_of_mem a (ih n (by simpa using h))

theorem mockIdx_lt (p : Rat) (h0 : 0 ≤ p) (h1 : p < 1) :
    (Int.floor (p * (mockResponses.length : Rat))).toNat < mockResponses.length := by
  have hlen : (mockResponses.length : Rat) = 3 := by norm_num [mockResponses]
  rw [hlen]
  have hf : Int.floor (p * (3 : Rat)) < 3 := by
    rw [Int.floor_lt]
    push_cast
    nlinarith
  have : (Int.floor (p * (3 : Rat))).toNat < 3 := by omega
  simpa [mockResponses] using this

/-- C4, counterexample: on a transition to authenticated with one server
session available, a state whose current pointer already holds a (local)
session keeps that pointer: the most recent server session's messages are not
fetched and it does not become current — refuting "regardless of what the
current pointer held before the transition". -/
theorem authTransition_keeps_existing_current :
    (authEffect ⟨.ok [⟨7, "S", 1, 2⟩], .ok [⟨1, "m", true, 3⟩]⟩
      ⟨[⟨"local-5", "T", [], 0, 0⟩], some ⟨"local-5", "T", [], 0, 0⟩, true, false⟩).st.currentChat
      = some ⟨"local-5", "T", [], 0, 0⟩ ∧
    (authEffect ⟨.ok [⟨7, "S", 1, 2⟩], .ok [⟨1, "m", true, 3⟩]⟩
      ⟨[⟨"local-5", "T", [], 0, 0⟩], some ⟨"local-5", "T", [], 0, 0⟩, true, false⟩).st.currentChat
      ≠ some (convertApiChatToLocal ⟨7, "S", 1, 2⟩ [⟨1, "m", true, 3⟩]) ∧
    (authEffect ⟨.ok [⟨7, "S", 1, 2⟩], .ok [⟨1, "m", true, 3⟩]⟩
      ⟨[⟨"local-5", "T", [], 0, 0⟩], some ⟨"local-5", "T", [], 0, 0⟩, true, false⟩).calls
      = [.getSessions] := by
  decide

/-- C4, amended: on a transition to authenticated whose session-list call
succeeds, the Directory is replaced wholesale by the server list; the most
recent session's messages are loaded and it becomes current only when no
session was current at that point (and that load succeeds) — when the current
pointer was non-null it is left unchanged. -/
theorem authTransition_reload_behavior (env : LoadEnv) (s : ChatState)
    (sessions : List ApiSession)
    (hAuth : s.isAuthenticated = true)
    (hSess : env.sessionsRes = .ok sessions) :
    (authEffect env s).st.chatHistories
      = sessions.map (fun sess => convertApiChatToLocal sess []) ∧
    (∀ sess0 rest msgs, s.currentChat = none → sessions = sess0 :: rest →
      env.firstMsgsRes = .ok msgs →
      (authEffect env s).st.currentChat = some (convertApiChatToLocal sess0 msgs)) ∧
    (∀ c, s.currentChat = some c → (authEffect env s).st.currentChat = some c) := by
  simp only [authEffect, hAuth, if_true, loadChatSessions, Bool.not_true, hSess,
    Bool.false_eq_true, if_false]
  cases hs0 : sessions with
  | nil =>
    cases hc : s.currentChat <;>
      simp [hc]
  | cons s0 rest =>
    cases hc : s.currentChat with
    | none =>
      cases hm : env.firstMsgsRes with
      | ok msgs => simp [hc, hm]
      | error e => simp [hc, hm]
    | some c => simp [hc]

/-- Witness for the amended C4 theorem: empty Directory, no current session,
one server session whose messages load successfully. -/
theorem authTransition_reload_behavior_witness :
    (authEffect ⟨.ok [⟨7, "S", 1, 2⟩], .ok [⟨1, "m", true, 3⟩]⟩
        ⟨[], none, true, false⟩).st.chatHistories
      = [⟨7, "S", 1, 2⟩].map (fun sess => convertApiChatToLocal sess []) ∧
    (∀ sess0 rest msgs, (none : Option ChatHistory) = none → [⟨7, "S", 1, 2⟩] = sess0 :: rest →
      (Except.ok [⟨1, "m", true, 3⟩] : Except Unit (List ApiMessage)) = .ok msgs →
      (authEffect ⟨.ok [⟨7, "S", 1, 2⟩], .ok [⟨1, "m", true, 3⟩]⟩
        ⟨[], none, true, false⟩).st.currentChat = some (convertApiChatToLocal sess0 msgs)) ∧
    (∀ c, (none : Option ChatHistory) = some c →
      (authEffect ⟨.ok [⟨7, "S", 1, 2⟩], .ok [⟨1, "m", true, 3⟩]⟩
        ⟨[], none, true, false⟩).st.currentChat = some c) :=
  authTransition_reload_behavior ⟨.ok [⟨7, "S", 1, 2⟩], .ok [⟨1, "m", true, 3⟩]⟩
    ⟨[], none, true, false⟩ [⟨7, "S", 1, 2⟩] rfl rfl

/-- C6: in anonymous mode no network call is issued: `createNewChat`
synthesizes the session locally and makes it current, `selectChat` on a local
id leaves the Directory untouched (it only moves the pointer), and
`sendMessage` on a local current session issues no calls, sleeps once for
`1000 + Math.random() * 2000` milliseconds (in `[1000, 3000)`), and appends
one of the three fixed canned assistant responses selected by the random
draw. -/
theorem anonymous_ops_no_network (cenv : CreateEnv) (senv : SelectEnv) (env : SendEnv)
    (content chatId : String) (s : ChatState) (c : ChatHistory)
    (hAuth : s.isAuthenticated = false)
    (hSel : isLocalId chatId = true)
    (hCur : s.currentChat = some c)
    (hLoc : isLocalId c.id = true)
    (hr0 : 0 ≤ env.randDelay) (hr1 : env.randDelay < 1)
    (hp0 : 0 ≤ env.randPick) (hp1 : env.randPick < 1) :
    ((createNewChat cenv s).calls = [] ∧
      (createNewChat cenv s).st.chatHistories =
        ⟨"local-" ++ toString cenv.nowMs, "New Conversation", [], cenv.tNew, cenv.tNew⟩
          :: s.chatHistories ∧
      (createNewChat cenv s).st.currentChat =
        some ⟨"local-" ++ toString cenv.nowMs, "New Conversation", [], cenv.tNew, cenv.tNew⟩) ∧
    ((selectChat senv chatId s).calls = [] ∧
      (selectChat senv chatId s).st.chatHistories = s.chatHistories) ∧
    ((sendMessage env content s).calls = [] ∧
      mockResponses.length = 3 ∧
      (∃ d, (sendMessage env content s).slept = [d] ∧ 1000 ≤ d ∧ d < 3000) ∧
      (∃ fc, (sendMessage env content s).st.currentChat = some fc ∧
        fc.messages = (optimisticChat env content c).messages ++
          [⟨env.uuidAssistant,
            mockResponses.getD (Int.floor (env.randPick * (mockResponses.length : Rat))).toNat "",
            .assistant, env.tFinal⟩] ∧
        mockResponses.getD (Int.floor (env.randPick * (mockResponses.length : Rat))).toNat ""
          ∈ mockResponses)) := by
  refine ⟨?_, ?_, ?_⟩
  · simp [createNewChat, hAuth]
  · constructor
    · simp only [selectChat, hSel, if_true]
      cases hf : s.chatHistories.find? (fun h => h.id == chatId) <;> simp [hf]
    · simp only [selectChat, hSel, if_true]
      cases hf : s.chatHistories.find? (fun h => h.id == chatId) <;> simp [hf]
  · have hcond : (s.isAuthenticated && !isLocalId c.id) = false := by
      simp [hAuth]
    simp only [sendMessage, hCur, sendCore, hcond, Bool.false_eq_true, if_false]
    refine ⟨trivial, by norm_num [mockResponses], ⟨_, rfl, ?_, ?_⟩, ⟨_, rfl, rfl, ?_⟩⟩
    · nlinarith
    · nlinarith
    · exact getD_mem _ _ _ (mockIdx_lt env.randPick hp0 hp1)

/-- Witness for C6 with the random draws both 1/2: delay 2000 ms, canned
response index 1. -/
theorem anonymous_ops_no_network_witness :
    ((createNewChat ⟨.error (), 9, 1⟩ ⟨[⟨"local-5", "T", [], 0, 0⟩],
        some ⟨"local-5", "T", [], 0, 0⟩, false, false⟩).calls = [] ∧
      (createNewChat ⟨.error (), 9, 1⟩ ⟨[⟨"local-5", "T", [], 0, 0⟩],
        some ⟨"local-5", "T", [], 0, 0⟩, false, false⟩).st.chatHistories =
        ⟨"local-" ++ toString 9, "New Conversation", [], 1, 1⟩
          :: [⟨"local-5", "T", [], 0, 0⟩] ∧
      (createNewChat ⟨.error (), 9, 1⟩ ⟨[⟨"local-5", "T", [], 0, 0⟩],
        some ⟨"local-5", "T", [], 0, 0⟩, false, false⟩).st.currentChat =
        some ⟨"local-" ++ toString 9, "New Conversation", [], 1, 1⟩) ∧
    ((selectChat ⟨.error ()⟩ "local-5" ⟨[⟨"local-5", "T", [], 0, 0⟩],
        some ⟨"local-5", "T", [], 0, 0⟩, false, false⟩).calls = [] ∧
      (selectChat ⟨.error ()⟩ "local-5" ⟨[⟨"local-5", "T", [], 0, 0⟩],
        some ⟨"local-5", "T", [], 0, 0⟩, false, false⟩).st.chatHistories =
        [⟨"local-5", "T", [], 0, 0⟩]) ∧
    ((sendMessage ⟨.error (), .error (), .error (), .error (), "u1", "u2", 99, 10, 11, 12, 13,
        (1 : Rat)/2, (1 : Rat)/2⟩ "Hello" ⟨[⟨"local-5", "T", [], 0, 0⟩],
        some ⟨"local-5", "T", [], 0, 0⟩, false, false⟩).calls = [] ∧
      mockResponses.length = 3 ∧
      (∃ d, (sendMessage ⟨.error (), .error (), .error (), .error (), "u1", "u2", 99, 10, 11, 12,
        13, (1 : Rat)/2, (1 : Rat)/2⟩ "Hello" ⟨[⟨"local-5", "T", [], 0, 0⟩],
        some ⟨"local-5", "T", [], 0, 0⟩, false, false⟩).slept = [d] ∧ 1000 ≤ d ∧ d < 3000) ∧
      (∃ fc, (sendMessage ⟨.error (), .error (), .error (), .error (), "u1", "u2", 99, 10, 11, 12,
        13, (1 : Rat)/2, (1 : Rat)/2⟩ "Hello" ⟨[⟨"local-5", "T", [], 0, 0⟩],
        some ⟨"local-5", "T", [], 0, 0⟩, false, false⟩).st.currentChat = some fc ∧
        fc.messages = (optimisticChat ⟨.error (), .error (), .error (), .error (), "u1", "u2", 99,
          10, 11, 12, 13, (1 : Rat)/2, (1 : Rat)/2⟩ "Hello" ⟨"local-5", "T", [], 0, 0⟩).messages ++
          [⟨"u2",
            mockResponses.getD (Int.floor ((1 : Rat)/2 * (mockResponses.length : Rat))).toNat "",
            .assistant, 13⟩] ∧
        mockResponses.getD (Int.floor ((1 : Rat)/2 * (mockResponses.length : Rat))).toNat ""
          ∈ mockResponses)) :=
  anonymous_ops_no_network ⟨.error (), 9, 1⟩ ⟨.error ()⟩
    ⟨.error (), .error (), .error (), .error (), "u1", "u2", 99, 10, 11, 12, 13,
      (1 : Rat)/2, (1 : Rat)/2⟩ "Hello" "local-5"
    ⟨[⟨"local-5", "T", [], 0, 0⟩], some ⟨"local-5", "T", [], 0, 0⟩, false, false⟩
    ⟨"local-5", "T", [], 0, 0⟩
    rfl (by decide) rfl (by decide) (by norm_num) (by norm_num) (by norm_num) (by norm_num)

/-- C7: `deleteChat` on a remote session (while authenticated, with the
session listed): a failed server delete leaves the whole state unchanged —
the Directory still contains the session; a successful delete removes exactly
that entry, and when the deleted session was current the new current is the
head of the remaining most-recent-first list (or none), while a different
current session is kept. -/
theorem deleteChat_remote_behavior (env : DeleteEnv) (chatId : String) (s : ChatState)
    (hRemote : isLocalId chatId = false)
    (hAuth : s.isAuthenticated = true)
    (hMem : ∃ h ∈ s.chatHistories, h.id = chatId) :
    (env.deleteRes = .error () →
      (deleteChat env chatId s).st = s ∧
      (∃ h ∈ (deleteChat env chatId s).st.chatHistories, h.id = chatId)) ∧
    (env.deleteRes = .ok () →
      (deleteChat env chatId s).st.chatHistories
        = s.chatHistories.filter (fun h => h.id != chatId) ∧
      (∀ c, s.currentChat = some c → c.id = chatId →
        (deleteChat env chatId s).st.currentChat
          = (s.chatHistories.filter (fun h => h.id != chatId)).head?) ∧
      (∀ c, s.currentChat = some c → c.id ≠ chatId →
        (deleteChat env chatId s).st.currentChat = some c)) := by
  constructor
  · intro he
    constructor
    · simp [deleteChat, hRemote, hAuth, he]
    · simpa [deleteChat, hRemote, hAuth, he] using hMem
  · intro ho
    refine ⟨?_, ?_, ?_⟩
    · simp [deleteChat, hRemote, hAuth, ho]
    · intro c hc hid
      simp [deleteChat, hRemote, hAuth, ho, hc, hid]
    · intro c hc hid
      simp [deleteChat, hRemote, hAuth, ho, hc, hid]

/-- Witness for C7: a failed delete of session "7" which is current. -/
theorem deleteChat_remote_behavior_witness :
    ((Except.error () : Except Unit Unit) = .error () →
      (deleteChat ⟨.error ()⟩ "7" ⟨[⟨"7", "t", [], 1, 1⟩],
        some ⟨"7", "t", [], 1, 1⟩, true, false⟩).st =
        ⟨[⟨"7", "t", [], 1, 1⟩], some ⟨"7", "t", [], 1, 1⟩, true, false⟩ ∧
      (∃ h ∈ (deleteChat ⟨.error ()⟩ "7" ⟨[⟨"7", "t", [], 1, 1⟩],
        some ⟨"7", "t", [], 1, 1⟩, true, false⟩).st.chatHistories, h.id = "7")) ∧
    ((Except.error () : Except Unit Unit) = .ok () →
      (deleteChat ⟨.error ()⟩ "7" ⟨[⟨"7", "t", [], 1, 1⟩],
        some ⟨"7", "t", [], 1, 1⟩, true, false⟩).st.chatHistories
        = [⟨"7", "t", [], 1, 1⟩].filter (fun h => h.id != "7") ∧
      (∀ c, (some ⟨"7", "t", [], 1, 1⟩ : Option ChatHistory) = some c → c.id = "7" →
        (deleteChat ⟨.error ()⟩ "7" ⟨[⟨"7", "t", [], 1, 1⟩],
          some ⟨"7", "t", [], 1, 1⟩, true, false⟩).st.currentChat
          = ([⟨"7", "t", [], 1, 1⟩].filter (fun h => h.id != "7")).head?) ∧
      (∀ c, (some ⟨"7", "t", [], 1, 1⟩ : Option ChatHistory) = some c → c.id ≠ "7" →
        (deleteChat ⟨.error ()⟩ "7" ⟨[⟨"7", "t", [], 1, 1⟩],
          some ⟨"7", "t", [], 1, 1⟩, true, false⟩).st.currentChat
          = some c)) :=
  deleteChat_remote_behavior ⟨.error ()⟩ "7"
    ⟨[⟨"7", "t", [], 1, 1⟩], some ⟨"7", "t", [], 1, 1⟩, true, false⟩
    (by decide) rfl (by decide)

/-- Witness for C8 at the reachable state produced by one anonymous
`createNewChat` (one local session, current). -/
theorem session_namespace_determines_path_witness :
    ((selectChat ⟨.error ()⟩ "local-5"
        (createNewChat ⟨.error (), 5, 0⟩ ⟨[], none, false, false⟩).st).st.chatHistories
      = (createNewChat ⟨.error (), 5, 0⟩ ⟨[], none, false, false⟩).st.chatHistories) ∧
    ((createNewChat ⟨.error (), 5, 0⟩ ⟨[], none, false, false⟩).st.currentChat
        = some ⟨"local-" ++ toString 5, "New Conversation", [], 0, 0⟩ →
      (sendMessage ⟨.error (), .error (), .error (), .error (), "u1", "u2", 9, 1, 2, 3, 4, 0, 0⟩
        "hi" (createNewChat ⟨.error (), 5, 0⟩
          ⟨[], none, false, false⟩).st).st.chatHistories.map (fun h => h.id)
        = (createNewChat ⟨.error (), 5, 0⟩
            ⟨[], none, false, false⟩).st.chatHistories.map (fun h => h.id) ∧
      (∀ c2, (sendMessage ⟨.error (), .error (), .error (), .error (), "u1", "u2", 9, 1, 2, 3, 4,
          0, 0⟩ "hi" (createNewChat ⟨.error (), 5, 0⟩
          ⟨[], none, false, false⟩).st).st.currentChat = some c2 →
        c2.id = ChatHistory.id ⟨"local-" ++ toString 5, "New Conversation", [], 0, 0⟩)) ∧
    (∀ y ∈ (deleteChat ⟨.error ()⟩ "local-5"
        (createNewChat ⟨.error (), 5, 0⟩ ⟨[], none, false, false⟩).st).st.chatHistories,
      y ∈ (createNewChat ⟨.error (), 5, 0⟩ ⟨[], none, false, false⟩).st.chatHistories) ∧
    (isLocalId "local-5" = true →
      (selectChat ⟨.error ()⟩ "local-5"
        (createNewChat ⟨.error (), 5, 0⟩ ⟨[], none, false, false⟩).st).calls = [] ∧
      (deleteChat ⟨.error ()⟩ "local-5"
        (createNewChat ⟨.error (), 5, 0⟩ ⟨[], none, false, false⟩).st).calls = []) ∧
    ((createNewChat ⟨.error (), 5, 0⟩ ⟨[], none, false, false⟩).st.currentChat
        = some ⟨"local-" ++ toString 5, "New Conversation", [], 0, 0⟩ →
      isLocalId (ChatHistory.id ⟨"local-" ++ toString 5, "New Conversation", [], 0, 0⟩) = true →
      (sendMessage ⟨.error (), .error (), .error (), .error (), "u1", "u2", 9, 1, 2, 3, 4, 0, 0⟩
        "hi" (createNewChat ⟨.error (), 5, 0⟩ ⟨[], none, false, false⟩).st).calls = []) ∧
    ((createNewChat ⟨.error (), 5, 0⟩ ⟨[], none, false, false⟩).st.currentChat
        = some ⟨"local-" ++ toString 5, "New Conversation", [], 0, 0⟩ →
      isLocalId (ChatHistory.id ⟨"local-" ++ toString 5, "New Conversation", [], 0, 0⟩) = false →
      ∃ rest, (sendMessage ⟨.error (), .error (), .error (), .error (), "u1", "u2", 9, 1, 2, 3, 4,
          0, 0⟩ "hi" (createNewChat ⟨.error (), 5, 0⟩ ⟨[], none, false, false⟩).st).calls
        = NetCall.sendMsg (parseIntS
            (ChatHistory.id ⟨"local-" ++ toString 5, "New Conversation", [], 0, 0⟩)) :: rest) ∧
    (isLocalId "local-5" = false →
      (∃ h ∈ (createNewChat ⟨.error (), 5, 0⟩ ⟨[], none, false, false⟩).st.chatHistories,
        h.id = "local-5") →
      (selectChat ⟨.error ()⟩ "local-5"
        (createNewChat ⟨.error (), 5, 0⟩ ⟨[], none, false, false⟩).st).calls
        = [NetCall.getMessages (parseIntS "local-5")] ∧
      (deleteChat ⟨.error ()⟩ "local-5"
        (createNewChat ⟨.error (), 5, 0⟩ ⟨[], none, false, false⟩).st).calls
        = [NetCall.deleteSession (parseIntS "local-5")]) :=
  session_namespace_determines_path
    (createNewChat ⟨.error (), 5, 0⟩ ⟨[], none, false, false⟩).st
    (Reachable.create ⟨.error (), 5, 0⟩ Reachable.init)
    ⟨.error ()⟩ ⟨.error ()⟩
    ⟨.error (), .error (), .error (), .error (), "u1", "u2", 9, 1, 2, 3, 4, 0, 0⟩
    "local-5" "hi" ⟨"local-" ++ toString 5, "New Conversation", [], 0, 0⟩

end Sakhi

